import Mathlib

/-!
Shallow embedding of `parsons/ngpvan/codes.py` (the NGPVAN `Codes` client).

The module is a thin wrapper: every method builds a URL and a parameter
mapping, hands it to the shared VAN connection collaborator, and passes the
response (or the collaborator's error) back to the caller.  We embed:

* JSON-like values (`JVal`) and Python dicts as association lists (`PyDict`);
* Python truthiness of the optional arguments (`if name:` etc.);
* dict subscripting `s['name']` as a lookup that raises `KeyError` when the
  key is absent;
* the unbound local variable `se` in `create_code` (the `post_data` dict
  literal references `se` even when the `if supported_entities:` guard did
  not run, which in Python raises `UnboundLocalError` before any request);
* the connection collaborator as an oracle (`VanConnection`) mapping each
  request to a response or an error, which the wrapper propagates unchanged;
* `petl.fromcolumns([xs], header=[h])` at its two single-column call sites;
* the request actually issued by a method, recorded as a trace.

Each method threads the client object (`Codes`, whose only field is the
connection reference) through unchanged, mirroring that no method assigns to
`self`.
-/

set_option autoImplicit false

namespace ParsonsNgpvan

/-- JSON-like values: the payloads this module marshals. -/
inductive JVal where
  | null
  | b (v : Bool)
  | n (v : Int)
  | s (v : String)
  | arr (xs : List JVal)
  | obj (fields : List (String × JVal))

/-- A Python dict with string keys, as an association list (insertion order
is significant, as it is for Python dicts). -/
abbrev PyDict := List (String × JVal)

/-- A Python `None`-or-string argument rendered as a JSON value. -/
def optStr : Option String → JVal
  | none => JVal.null
  | some v => JVal.s v

/-- A Python `None`-or-int argument rendered as a JSON value. -/
def optInt : Option Int → JVal
  | none => JVal.null
  | some v => JVal.n v

/-- Errors originating in the connection collaborator (HTTP failures etc.). -/
inductive VanError where
  | http (status : Nat) (reason : String)

/-- Python-level exceptions the wrapper itself can raise, plus propagated
collaborator errors (`vanErr e` is the collaborator's error `e`, surfaced
unchanged). -/
inductive PyError where
  | keyError (key : String)
  | unboundLocal (var : String)
  | attributeError (attr : String)
  | vanErr (e : VanError)

/-- A Parsons/petl table: a header row and data rows. -/
structure PTable where
  header : List String
  rows : List (List JVal)

/-- `Table.num_rows`. -/
def PTable.num_rows (t : PTable) : Nat :=
  t.rows.length

/-- A raw HTTP response as returned by `request(..., raw=True)`: status line
plus the value of `.json()` (the module only ever treats it as an array). -/
structure RawResponse where
  status : Nat
  reason : String
  jsonBody : List JVal

/-- What the connection collaborator hands back on success: a parsed table
(the default) or the raw response (when `raw=True`). -/
inductive ConnResult where
  | table (t : PTable)
  | raw (r : RawResponse)

/-- The request a method hands to `connection.request`. -/
structure Request where
  url : String
  reqType : String
  postData : Option PyDict
  raw : Bool

/-- The connection collaborator, as an oracle: a base URI plus response
functions for `request` and `request_paginate`. -/
structure VanConnection where
  uri : String
  respond : Request → Except VanError ConnResult
  respondPaginate : String → List (String × JVal) → Except VanError PTable

/-- The `Codes` client object: its only field is the connection reference. -/
structure Codes where
  connection : VanConnection

/-- One outgoing call to the connection collaborator. -/
inductive TraceItem where
  | req (r : Request)
  | paginate (url : String) (args : List (String × JVal))

/-- The observable outcome of one method call: the requests it issued, the
value it returned or the exception it raised, and the client state after the
call. -/
structure MethodOut (α : Type) where
  trace : List TraceItem
  result : Except PyError α
  state : Codes

/-- Propagate a collaborator error unchanged to the caller. -/
def passVan {α : Type} : Except VanError α → Except PyError α
  | Except.ok a => Except.ok a
  | Except.error e => Except.error (PyError.vanErr e)

/-- Python truthiness of an optional string (`None` and `''` are falsy). -/
def truthyStr : Option String → Bool
  | none => false
  | some v => !(v == "")

/-- Python truthiness of an optional int (`None` and `0` are falsy). -/
def truthyInt : Option Int → Bool
  | none => false
  | some v => !(v == 0)

/-- Python truthiness of an optional list (`None` and `[]` are falsy). -/
def truthyList {α : Type} : Option (List α) → Bool
  | none => false
  | some l => !l.isEmpty

/-- Python dict subscripting `d[k]`: the value, or a `KeyError`. -/
def dictGet (d : PyDict) (k : String) : Except PyError JVal :=
  match d.lookup k with
  | some v => Except.ok v
  | none => Except.error (PyError.keyError k)

/-- One element of the `supported_entities` comprehension in `create_code`
and `update_code`: the dict literal reads `s['name']`, `s['is_searchable']`,
`s['is_applicable']` in that order and rebuilds the dict with the remote
key names. -/
def convertEntity (s : PyDict) : Except PyError PyDict :=
  match dictGet s "name" with
  | Except.error e => Except.error e
  | Except.ok nm =>
    match dictGet s "is_searchable" with
    | Except.error e => Except.error e
    | Except.ok searchable =>
      match dictGet s "is_applicable" with
      | Except.error e => Except.error e
      | Except.ok applicable =>
        Except.ok [("name", nm), ("isSearchable", searchable), ("is_applicable", applicable)]

/-- The whole comprehension `[{...} for s in supported_entities]`, evaluated
left to right; the first missing key aborts it with that `KeyError`. -/
def convertEntities : List PyDict → Except PyError (List PyDict)
  | [] => Except.ok []
  | s :: rest =>
    match convertEntity s with
    | Except.error e => Except.error e
    | Except.ok d =>
      match convertEntities rest with
      | Except.error e => Except.error e
      | Except.ok ds => Except.ok (d :: ds)

/-- The `args` dict built by `get_codes` (lines 37-42): every key is always
present; an omitted filter contributes the value `None`. -/
def getCodesArgs (name supported_entities parent_code_id code_type : Option String)
    (page_size : Int) : List (String × JVal) :=
  [("name", optStr name),
   ("supportedEntities", optStr supported_entities),
   ("parentCodeId", optStr parent_code_id),
   ("codeType", optStr code_type),
   ("$top", JVal.n page_size)]

/-- `Codes.get_codes`: builds `args`, issues a paginated GET on `codes`,
returns the table. -/
def getCodes (self : Codes) (name supported_entities parent_code_id code_type : Option String)
    (page_size : Int) : MethodOut PTable :=
  let args := getCodesArgs name supported_entities parent_code_id code_type page_size
  let url := self.connection.uri ++ "codes"
  { trace := [TraceItem.paginate url args],
    result := passVan (self.connection.respondPaginate url args),
    state := self }

/-- `Codes.get_code`: GET on `codes/{code_id}`, response returned unchanged. -/
def getCode (self : Codes) (code_id : Int) : MethodOut ConnResult :=
  let url := self.connection.uri ++ "codes/" ++ toString code_id
  let req : Request := { url := url, reqType := "GET", postData := none, raw := false }
  { trace := [TraceItem.req req],
    result := passVan (self.connection.respond req),
    state := self }

/-- `.json()` on what the collaborator returned: only a raw response has it. -/
def jsonOf : ConnResult → Except PyError (List JVal)
  | ConnResult.raw r => Except.ok r.jsonBody
  | ConnResult.table _ => Except.error (PyError.attributeError "json")

/-- `petl.fromcolumns([col], header=[h])` as used at the two single-column
call sites: a table whose rows each hold one element of the column. -/
def fromcolumns1 (col : List JVal) (h : String) : PTable :=
  { header := [h], rows := col.map (fun x => [x]) }

/-- `Codes.get_code_types`: raw GET on `codeTypes`, wrap the JSON array as a
single-column table with header `code_type`. -/
def getCodeTypes (self : Codes) : MethodOut PTable :=
  let url := self.connection.uri ++ "codeTypes"
  let req : Request := { url := url, reqType := "GET", postData := none, raw := true }
  { trace := [TraceItem.req req],
    result :=
      match self.connection.respond req with
      | Except.error e => Except.error (PyError.vanErr e)
      | Except.ok cr =>
        match jsonOf cr with
        | Except.error e => Except.error e
        | Except.ok xs => Except.ok (fromcolumns1 xs "code_type"),
    state := self }

/-- The Python default of `create_code`'s `code_type` parameter. -/
def defaultCodeType : String := "SourceCode"

/-- The `post_data` dict literal of `create_code` (lines 138-142), given the
already-converted `se` list. -/
def createPostData (name : Option String) (parent_code_id : Option Int)
    (description : Option String) (code_type : String) (se : List PyDict) : PyDict :=
  [("parentCodeId", optInt parent_code_id),
   ("name", optStr name),
   ("codeType", JVal.s code_type),
   ("supportedEntities", JVal.arr (se.map JVal.obj)),
   ("description", optStr description)]

/-- `Codes.create_code`: when `supported_entities` is truthy the comprehension
runs (and may raise `KeyError`); otherwise the local `se` is never assigned
and the `post_data` literal raises `UnboundLocalError` before any request. -/
def createCode (self : Codes) (name : Option String) (parent_code_id : Option Int)
    (description : Option String) (code_type : String)
    (supported_entities : Option (List PyDict)) : MethodOut ConnResult :=
  let url := self.connection.uri ++ "codes"
  if truthyList supported_entities then
    match convertEntities (supported_entities.getD []) with
    | Except.error e => { trace := [], result := Except.error e, state := self }
    | Except.ok se =>
      let req : Request :=
        { url := url, reqType := "POST",
          postData := some (createPostData name parent_code_id description code_type se),
          raw := false }
      { trace := [TraceItem.req req],
        result := passVan (self.connection.respond req),
        state := self }
  else
    { trace := [], result := Except.error (PyError.unboundLocal "se"), state := self }

/-- The `post_data` dict built by `update_code` (lines 189-205): keys are
inserted in source order (name, parentCodeId, codeType, description,
supportedEntities), each under its truthiness guard. -/
def updateBody (name : Option String) (parent_code_id : Option Int)
    (description : Option String) (code_type : Option String)
    (supported_entities : Option (List PyDict)) : Except PyError PyDict :=
  let pd : PyDict := []
  let pd := if truthyStr name then pd ++ [("name", optStr name)] else pd
  let pd := if truthyInt parent_code_id then pd ++ [("parentCodeId", optInt parent_code_id)] else pd
  let pd := if truthyStr code_type then pd ++ [("codeType", optStr code_type)] else pd
  let pd := if truthyStr description then pd ++ [("description", optStr description)] else pd
  if truthyList supported_entities then
    match convertEntities (supported_entities.getD []) with
    | Except.error e => Except.error e
    | Except.ok se => Except.ok (pd ++ [("supportedEntities", JVal.arr (se.map JVal.obj))])
  else
    Except.ok pd

/-- `Codes.update_code`: build the conditional `post_data`, then PUT it to
`codes/{code_id}`; a `KeyError` from the comprehension precedes the request. -/
def updateCode (self : Codes) (code_id : Int) (name : Option String)
    (parent_code_id : Option Int) (description : Option String)
    (code_type : Option String) (supported_entities : Option (List PyDict)) :
    MethodOut ConnResult :=
  let url := self.connection.uri ++ "codes/" ++ toString code_id
  match updateBody name parent_code_id description code_type supported_entities with
  | Except.error e => { trace := [], result := Except.error e, state := self }
  | Except.ok pd =>
    let req : Request := { url := url, reqType := "PUT", postData := some pd, raw := false }
    { trace := [TraceItem.req req],
      result := passVan (self.connection.respond req),
      state := self }

/-- `Codes.delete_code`: raw DELETE on `codes/{code_id}`, response returned
unchanged. -/
def deleteCode (self : Codes) (code_id : Int) : MethodOut ConnResult :=
  let url := self.connection.uri ++ "codes/" ++ toString code_id
  let req : Request := { url := url, reqType := "DELETE", postData := none, raw := true }
  { trace := [TraceItem.req req],
    result := passVan (self.connection.respond req),
    state := self }

/-- `Codes.get_code_supported_entities`: raw GET on `codes/supportedEntities`,
wrap the JSON array as a single-column table with header
`supported_entities`. -/
def getCodeSupportedEntities (self : Codes) : MethodOut PTable :=
  let url := self.connection.uri ++ "codes/supportedEntities"
  let req : Request := { url := url, reqType := "GET", postData := none, raw := true }
  { trace := [TraceItem.req req],
    result :=
      match self.connection.respond req with
      | Except.error e => Except.error (PyError.vanErr e)
      | Except.ok cr =>
        match jsonOf cr with
        | Except.error e => Except.error e
        | Except.ok xs => Except.ok (fromcolumns1 xs "supported_entities"),
    state := self }

/-! Sample connections used to instantiate the theorems on concrete inputs. -/

/-- A connection whose collaborator reports 404 for every request. -/
def conn404 : VanConnection :=
  { uri := "https://api.securevan.com/v4/",
    respond := fun _ => Except.error (VanError.http 404 "Not Found"),
    respondPaginate := fun _ _ => Except.error (VanError.http 404 "Not Found") }

/-- A `Codes` client over `conn404`. -/
def codes404 : Codes := { connection := conn404 }

/-- The raw response of a successful DELETE: HTTP 204, empty body. -/
def noContentResponse : RawResponse :=
  { status := 204, reason := "No Content", jsonBody := [] }

/-- A connection whose collaborator answers every request with a raw 204. -/
def conn204 : VanConnection :=
  { uri := "https://api.securevan.com/v4/",
    respond := fun _ => Except.ok (ConnResult.raw noContentResponse),
    respondPaginate := fun _ _ => Except.error (VanError.http 404 "Not Found") }

/-- A `Codes` client over `conn204`. -/
def codes204 : Codes := { connection := conn204 }

/-- A raw 200 response carrying the JSON array `["Tag", "SourceCode"]`. -/
def twoTypesResponse : RawResponse :=
  { status := 200, reason := "OK", jsonBody := [JVal.s "Tag", JVal.s "SourceCode"] }

/-- A connection whose collaborator answers every request with
`twoTypesResponse`. -/
def connTypes : VanConnection :=
  { uri := "https://api.securevan.com/v4/",
    respond := fun _ => Except.ok (ConnResult.raw twoTypesResponse),
    respondPaginate := fun _ _ => Except.error (VanError.http 404 "Not Found") }

/-- A `Codes` client over `connTypes`. -/
def codesTypes : Codes := { connection := connTypes }

/-! ## Shared helper lemmas -/

/-- An element holding all three expected keys converts to the remote shape,
reading exactly those keys. -/
theorem convertEntity_ok (s : PyDict)
    (h1 : (s.lookup "name").isSome) (h2 : (s.lookup "is_searchable").isSome)
    (h3 : (s.lookup "is_applicable").isSome) :
    convertEntity s =
      Except.ok
        [("name", (s.lookup "name").getD JVal.null),
         ("isSearchable", (s.lookup "is_searchable").getD JVal.null),
         ("is_applicable", (s.lookup "is_applicable").getD JVal.null)] := by
  rcases ho1 : s.lookup "name" with _ | v1 <;> rw [ho1] at h1 <;> simp at h1
  rcases ho2 : s.lookup "is_searchable" with _ | v2 <;> rw [ho2] at h2 <;> simp at h2
  rcases ho3 : s.lookup "is_applicable" with _ | v3 <;> rw [ho3] at h3 <;> simp at h3
  simp [convertEntity, dictGet, ho1, ho2, ho3]

/-- A list whose elements all hold the three expected keys converts whole,
elementwise. -/
theorem convertEntities_ok (l : List PyDict)
    (h : ∀ s ∈ l, (s.lookup "name").isSome ∧ (s.lookup "is_searchable").isSome ∧
      (s.lookup "is_applicable").isSome) :
    convertEntities l =
      Except.ok (l.map (fun s =>
        [("name", (s.lookup "name").getD JVal.null),
         ("isSearchable", (s.lookup "is_searchable").getD JVal.null),
         ("is_applicable", (s.lookup "is_applicable").getD JVal.null)])) := by
  induction l with
  | nil => rfl
  | cons s rest ih =>
    obtain ⟨h1, h2, h3⟩ := h s (by simp)
    have hrest := ih (fun t ht => h t (by simp [ht]))
    simp [convertEntities, convertEntity_ok s h1 h2 h3, hrest]

/-- A successful single-element conversion produces a dict with exactly the
keys `name`, `isSearchable`, `is_applicable`, in that order. -/
theorem convertEntity_shape (s d : PyDict) (h : convertEntity s = Except.ok d) :
    d.map Prod.fst = ["name", "isSearchable", "is_applicable"] := by
  unfold convertEntity at h
  rcases hg1 : dictGet s "name" with e | v1 <;> rw [hg1] at h
  · exact Except.noConfusion h
  rcases hg2 : dictGet s "is_searchable" with e | v2 <;> rw [hg2] at h
  · exact Except.noConfusion h
  rcases hg3 : dictGet s "is_applicable" with e | v3 <;> rw [hg3] at h
  · exact Except.noConfusion h
  cases h
  rfl

/-- Every dict produced by a successful conversion carries exactly the keys
`name`, `isSearchable`, `is_applicable`, in that order. -/
theorem convertEntities_keys (l se_out : List PyDict)
    (h : convertEntities l = Except.ok se_out) :
    ∀ d ∈ se_out, d.map Prod.fst = ["name", "isSearchable", "is_applicable"] := by
  induction l generalizing se_out with
  | nil =>
    cases h
    intro d hd
    exact absurd hd (List.not_mem_nil d)
  | cons s rest ih =>
    unfold convertEntities at h
    rcases he : convertEntity s with e | d <;> rw [he] at h
    · exact Except.noConfusion h
    rcases hr : convertEntities rest with e | ds <;> rw [hr] at h
    · exact Except.noConfusion h
    cases h
    intro d hd
    rcases List.mem_cons.mp hd with hd | hd
    · subst hd
      exact convertEntity_shape s d he
    · exact ih ds hr d hd

/-! ## Claim theorems -/

/-- C1: contrary to the claim that a `create_code` call without
`supported_entities` still attempts the POST, the `post_data` dict literal
references the local `se`, which the guard `if supported_entities:` left
unassigned: the call raises `UnboundLocalError` on `se`, issues no request
(empty trace, for every connection), and this happens both when the argument
is `None` and when it is the empty list. -/
theorem C1_create_without_entities_raises_locally :
    ∀ (self : Codes) (name : Option String) (parent_code_id : Option Int)
      (description : Option String) (code_type : String),
      createCode self name parent_code_id description code_type none =
        { trace := [], result := Except.error (PyError.unboundLocal "se"), state := self } ∧
      createCode self name parent_code_id description code_type (some []) =
        { trace := [], result := Except.error (PyError.unboundLocal "se"), state := self } := by
  intro self name parent_code_id description code_type
  exact ⟨rfl, rfl⟩

/-- C2 counterexample: with every filter passed as `None`, the args mapping
`get_codes` hands to the connection still contains the key `name` — a null
filter is not omitted, refuting the claim at this input. -/
theorem C2_counterexample_null_filter_key_present :
    "name" ∈ (getCodesArgs none none none none 200).map Prod.fst := by
  simp [getCodesArgs]

/-- C2 amended: the args mapping handed to the connection always contains
all four filter keys plus `$top`, in source order; a filter passed as `None`
appears with value null rather than being omitted, and `get_codes` hands
exactly this mapping (with URL `uri ++ "codes"`) to `request_paginate`. -/
theorem C2_amended_all_filter_keys_always_sent :
    ∀ (self : Codes) (name supported_entities parent_code_id code_type : Option String)
      (page_size : Int),
      (getCodesArgs name supported_entities parent_code_id code_type page_size).map Prod.fst =
        ["name", "supportedEntities", "parentCodeId", "codeType", "$top"] ∧
      (getCodesArgs name supported_entities parent_code_id code_type page_size).lookup "name" =
        some (optStr name) ∧
      (getCodesArgs name supported_entities parent_code_id code_type
        page_size).lookup "supportedEntities" = some (optStr supported_entities) ∧
      (getCodesArgs name supported_entities parent_code_id code_type
        page_size).lookup "parentCodeId" = some (optStr parent_code_id) ∧
      (getCodesArgs name supported_entities parent_code_id code_type
        page_size).lookup "codeType" = some (optStr code_type) ∧
      (getCodesArgs name supported_entities parent_code_id code_type
        page_size).lookup "$top" = some (JVal.n page_size) ∧
      optStr none = JVal.null ∧
      (getCodes self name supported_entities parent_code_id code_type page_size).trace =
        [TraceItem.paginate (self.connection.uri ++ "codes")
          (getCodesArgs name supported_entities parent_code_id code_type page_size)] := by
  intro self name supported_entities parent_code_id code_type page_size
  exact ⟨rfl, rfl, rfl, rfl, rfl, rfl, rfl, rfl⟩

/-- C3 counterexample: a call supplying only `name` — here the explicitly
supplied empty string — produces an empty PUT body: the key `name` is absent
even though the field was supplied, because the code tests truthiness, not
presence. -/
theorem C3_counterexample_supplied_empty_name_dropped :
    updateBody (some "") none none none none = Except.ok [] := rfl

/-- C3 amended: the PUT body contains exactly the keys of the fields
supplied with truthy values (a field supplied as `''`, `0` or `[]` is
omitted as if absent); in particular a call supplying only a non-empty name
produces exactly the body containing the pair `name`. -/
theorem C3_amended_truthy_fields_exactly_in_body :
    (∀ v : String, v ≠ "" →
      updateBody (some v) none none none none = Except.ok [("name", JVal.s v)]) ∧
    (∀ (name : Option String) (parent_code_id : Option Int)
       (description code_type : Option String) (pd : PyDict),
      updateBody name parent_code_id description code_type none = Except.ok pd →
      (("name" ∈ pd.map Prod.fst) ↔ truthyStr name = true) ∧
      (("parentCodeId" ∈ pd.map Prod.fst) ↔ truthyInt parent_code_id = true) ∧
      (("codeType" ∈ pd.map Prod.fst) ↔ truthyStr code_type = true) ∧
      (("description" ∈ pd.map Prod.fst) ↔ truthyStr description = true) ∧
      "supportedEntities" ∉ pd.map Prod.fst) := by
  constructor
  · intro v hv
    simp [updateBody, truthyStr, truthyInt, optStr, truthyList, hv]
  · intro name parent_code_id description code_type pd h
    cases hn : truthyStr name <;> cases hp : truthyInt parent_code_id <;>
      cases hc : truthyStr code_type <;> cases hd : truthyStr description <;>
      simp [updateBody, truthyList, hn, hp, hc, hd] at h <;> subst h <;> simp

/-- C3 witness: updating with only the non-empty name `New Name` yields a
body holding exactly that pair. -/
theorem C3_witness_update_only_name :
    updateBody (some "New Name") none none none none =
      Except.ok [("name", JVal.s "New Name")] :=
  C3_amended_truthy_fields_exactly_in_body.1 "New Name" (by decide)

/-- The part of `update_code`'s `post_data` built before the
`supportedEntities` branch, flattened into one append chain. -/
def updPrefix (name : Option String) (parent_code_id : Option Int)
    (description code_type : Option String) : PyDict :=
  (((if truthyStr name then [("name", optStr name)] else []) ++
    (if truthyInt parent_code_id then [("parentCodeId", optInt parent_code_id)] else [])) ++
   (if truthyStr code_type then [("codeType", optStr code_type)] else [])) ++
  (if truthyStr description then [("description", optStr description)] else [])

/-- With a nonempty, fully-keyed `supported_entities`, `update_code`'s body
is the truthy-field prefix followed by the converted `supportedEntities`. -/
theorem updateBody_some (name : Option String) (parent_code_id : Option Int)
    (description code_type : Option String) (l : List PyDict) (hl : l ≠ [])
    (se_out : List PyDict) (hc : convertEntities l = Except.ok se_out) :
    updateBody name parent_code_id description code_type (some l) =
      Except.ok (updPrefix name parent_code_id description code_type ++
        [("supportedEntities", JVal.arr (se_out.map JVal.obj))]) := by
  have ht : truthyList (some l) = true := by
    cases l with
    | nil => exact absurd rfl hl
    | cons a l => rfl
  cases hn : truthyStr name <;> cases hp : truthyInt parent_code_id <;>
    cases hc2 : truthyStr code_type <;> cases hd : truthyStr description <;>
    simp [updateBody, updPrefix, ht, hc, hn, hp, hc2, hd]

/-- The truthy-field prefix of `update_code`'s body never carries the key
`supportedEntities`. -/
theorem updPrefix_no_supportedEntities (name : Option String) (parent_code_id : Option Int)
    (description code_type : Option String) :
    "supportedEntities" ∉ (updPrefix name parent_code_id description code_type).map Prod.fst := by
  cases hn : truthyStr name <;> cases hp : truthyInt parent_code_id <;>
    cases hc2 : truthyStr code_type <;> cases hd : truthyStr description <;>
    simp [updPrefix, hn, hp, hc2, hd]

/-- C4: a nonempty `supported_entities` list whose elements all carry the
keys `name`, `is_searchable`, `is_applicable` is rewritten elementwise to
the remote shape `(name, isSearchable, is_applicable)`, and both
`create_code` and `update_code` place exactly that converted list under
`supportedEntities` in the body of the single request they issue. -/
theorem C4_supported_entities_rewritten_to_remote_shape :
    ∀ (self : Codes) (se_in : List PyDict),
      se_in ≠ [] →
      (∀ s ∈ se_in, (s.lookup "name").isSome ∧ (s.lookup "is_searchable").isSome ∧
        (s.lookup "is_applicable").isSome) →
      ∃ se_out : List PyDict,
        convertEntities se_in = Except.ok se_out ∧
        se_out = se_in.map (fun s =>
          [("name", (s.lookup "name").getD JVal.null),
           ("isSearchable", (s.lookup "is_searchable").getD JVal.null),
           ("is_applicable", (s.lookup "is_applicable").getD JVal.null)]) ∧
        (∀ (name : Option String) (parent_code_id : Option Int)
           (description : Option String) (code_type : String),
          ∃ r : Request,
            (createCode self name parent_code_id description code_type (some se_in)).trace =
              [TraceItem.req r] ∧
            (r.postData.getD []).lookup "supportedEntities" =
              some (JVal.arr (se_out.map JVal.obj))) ∧
        (∀ (code_id : Int) (name : Option String) (parent_code_id : Option Int)
           (description code_type : Option String),
          ∃ r : Request,
            (updateCode self code_id name parent_code_id description code_type
              (some se_in)).trace = [TraceItem.req r] ∧
            r.postData =
              some (updPrefix name parent_code_id description code_type ++
                [("supportedEntities", JVal.arr (se_out.map JVal.obj))]) ∧
            "supportedEntities" ∉
              (updPrefix name parent_code_id description code_type).map Prod.fst) := by
  intro self se_in hne hkeys
  have ht : truthyList (some se_in) = true := by
    cases se_in with
    | nil => exact absurd rfl hne
    | cons a l => rfl
  refine ⟨_, convertEntities_ok se_in hkeys, rfl, ?_, ?_⟩
  · intro name parent_code_id description code_type
    refine ⟨{ url := self.connection.uri ++ "codes", reqType := "POST",
              postData := some (createPostData name parent_code_id description code_type
                (se_in.map (fun s =>
                  [("name", (s.lookup "name").getD JVal.null),
                   ("isSearchable", (s.lookup "is_searchable").getD JVal.null),
                   ("is_applicable", (s.lookup "is_applicable").getD JVal.null)]))),
              raw := false }, ?_, rfl⟩
    simp [createCode, ht, convertEntities_ok se_in hkeys]
  · intro code_id name parent_code_id description code_type
    have hb := updateBody_some name parent_code_id description code_type se_in hne _
      (convertEntities_ok se_in hkeys)
    refine ⟨{ url := self.connection.uri ++ "codes/" ++ toString code_id, reqType := "PUT",
              postData := some (updPrefix name parent_code_id description code_type ++
                [("supportedEntities", JVal.arr ((se_in.map (fun s =>
                  [("name", (s.lookup "name").getD JVal.null),
                   ("isSearchable", (s.lookup "is_searchable").getD JVal.null),
                   ("is_applicable", (s.lookup "is_applicable").getD JVal.null)])).map
                    JVal.obj))]),
              raw := false }, ?_, rfl,
            updPrefix_no_supportedEntities name parent_code_id description code_type⟩
    simp [updateCode, hb]

/-- C4 witness: the Event example from the claim, sent through `create_code`
over a concrete connection. -/
theorem C4_witness_event_example :
    ∃ se_out : List PyDict,
      convertEntities
          [[("name", JVal.s "Event"), ("is_searchable", JVal.b true),
            ("is_applicable", JVal.b true)]] = Except.ok se_out ∧
      se_out =
        [[("name", JVal.s "Event"), ("isSearchable", JVal.b true),
          ("is_applicable", JVal.b true)]] ∧
      ∃ r : Request,
        (createCode codes404 (some "Test Code") none none defaultCodeType
          (some [[("name", JVal.s "Event"), ("is_searchable", JVal.b true),
                  ("is_applicable", JVal.b true)]])).trace = [TraceItem.req r] ∧
        (r.postData.getD []).lookup "supportedEntities" =
          some (JVal.arr (se_out.map JVal.obj)) := by
  obtain ⟨se_out, h1, h2, h3, -⟩ :=
    C4_supported_entities_rewritten_to_remote_shape codes404
      [[("name", JVal.s "Event"), ("is_searchable", JVal.b true),
        ("is_applicable", JVal.b true)]]
      (by simp) (by simp)
  exact ⟨se_out, h1, by rw [h2]; rfl, h3 (some "Test Code") none none defaultCodeType⟩

/-- C5: when the collaborator answers the metadata GETs with a raw response
carrying a JSON array, `get_code_types` and `get_code_supported_entities`
each return a single-column table with one row per array element and the
fixed headers `code_type` and `supported_entities` respectively. -/
theorem C5_metadata_single_column_tables :
    ∀ (self : Codes) (r : RawResponse),
      (self.connection.respond
          { url := self.connection.uri ++ "codeTypes", reqType := "GET",
            postData := none, raw := true } = Except.ok (ConnResult.raw r) →
        (getCodeTypes self).result =
          Except.ok { header := ["code_type"], rows := r.jsonBody.map (fun x => [x]) } ∧
        ∀ t, (getCodeTypes self).result = Except.ok t → t.num_rows = r.jsonBody.length) ∧
      (self.connection.respond
          { url := self.connection.uri ++ "codes/supportedEntities", reqType := "GET",
            postData := none, raw := true } = Except.ok (ConnResult.raw r) →
        (getCodeSupportedEntities self).result =
          Except.ok { header := ["supported_entities"],
                      rows := r.jsonBody.map (fun x => [x]) } ∧
        ∀ t, (getCodeSupportedEntities self).result = Except.ok t →
          t.num_rows = r.jsonBody.length) := by
  intro self r
  constructor
  · intro h
    have hres : (getCodeTypes self).result = Except.ok (fromcolumns1 r.jsonBody "code_type") := by
      simp [getCodeTypes, h, jsonOf]
    refine ⟨hres, ?_⟩
    intro t ht
    rw [hres] at ht
    cases ht
    simp [fromcolumns1, PTable.num_rows]
  · intro h
    have hres : (getCodeSupportedEntities self).result =
        Except.ok (fromcolumns1 r.jsonBody "supported_entities") := by
      simp [getCodeSupportedEntities, h, jsonOf]
    refine ⟨hres, ?_⟩
    intro t ht
    rw [hres] at ht
    cases ht
    simp [fromcolumns1, PTable.num_rows]

/-- C5 witness: a concrete connection answering `["Tag", "SourceCode"]`
yields the two-row single-column tables. -/
theorem C5_witness_two_element_array :
    (getCodeTypes codesTypes).result =
      Except.ok { header := ["code_type"],
                  rows := [[JVal.s "Tag"], [JVal.s "SourceCode"]] } ∧
    (getCodeSupportedEntities codesTypes).result =
      Except.ok { header := ["supported_entities"],
                  rows := [[JVal.s "Tag"], [JVal.s "SourceCode"]] } :=
  ⟨((C5_metadata_single_column_tables codesTypes twoTypesResponse).1 rfl).1,
   ((C5_metadata_single_column_tables codesTypes twoTypesResponse).2 rfl).1⟩

/-- C6: `get_code` performs no catching or translation: whatever error the
connection collaborator returns for the `codes/{id}` GET is surfaced to the
caller unchanged. -/
theorem C6_get_code_error_passthrough :
    ∀ (self : Codes) (code_id : Int) (e : VanError),
      self.connection.respond
          { url := self.connection.uri ++ "codes/" ++ toString code_id,
            reqType := "GET", postData := none, raw := false } = Except.error e →
      (getCode self code_id).result = Except.error (PyError.vanErr e) := by
  intro self code_id e h
  simp [getCode, h, passVan]

/-- C6 witness: a collaborator answering 404 for a nonexistent id has its
error surfaced unchanged. -/
theorem C6_witness_not_found_surfaced :
    (getCode codes404 999).result =
      Except.error (PyError.vanErr (VanError.http 404 "Not Found")) :=
  C6_get_code_error_passthrough codes404 999 (VanError.http 404 "Not Found") rfl

/-- C7: `delete_code` issues exactly one DELETE to `codes/{id}` (raw, no
body), and on the happy path returns the connection's response unchanged. -/
theorem C7_delete_issues_delete_and_returns_raw :
    ∀ (self : Codes) (code_id : Int),
      (∃ r : Request,
        (deleteCode self code_id).trace = [TraceItem.req r] ∧
        r.reqType = "DELETE" ∧
        r.url = self.connection.uri ++ "codes/" ++ toString code_id ∧
        r.raw = true ∧ r.postData = none) ∧
      (∀ c : ConnResult,
        self.connection.respond
            { url := self.connection.uri ++ "codes/" ++ toString code_id,
              reqType := "DELETE", postData := none, raw := true } = Except.ok c →
        (deleteCode self code_id).result = Except.ok c) := by
  intro self code_id
  refine ⟨⟨_, rfl, rfl, rfl, rfl, rfl⟩, ?_⟩
  intro c h
  simp [deleteCode, h, passVan]

/-- C7 witness: deleting over a connection that answers with the empty
HTTP 204 response returns exactly that response. -/
theorem C7_witness_no_content :
    (deleteCode codes204 5).result = Except.ok (ConnResult.raw noContentResponse) ∧
    noContentResponse.status = 204 ∧ noContentResponse.reason = "No Content" :=
  ⟨(C7_delete_issues_delete_and_returns_raw codes204 5).2
      (ConnResult.raw noContentResponse) rfl,
   rfl, rfl⟩

/-- C8: the `code_type` parameter of `create_code` defaults to
`SourceCode`; whenever a call taking that default issues its POST (i.e. the
`supported_entities` marshaling succeeded), the body maps `codeType` to
`SourceCode`. -/
theorem C8_code_type_defaults_to_source_code :
    defaultCodeType = "SourceCode" ∧
    ∀ (self : Codes) (name : Option String) (parent_code_id : Option Int)
      (description : Option String) (se_in se_out : List PyDict),
      se_in ≠ [] → convertEntities se_in = Except.ok se_out →
      ∃ r : Request,
        (createCode self name parent_code_id description defaultCodeType
          (some se_in)).trace = [TraceItem.req r] ∧
        (r.postData.getD []).lookup "codeType" = some (JVal.s "SourceCode") := by
  refine ⟨rfl, ?_⟩
  intro self name parent_code_id description se_in se_out hne hc
  have ht : truthyList (some se_in) = true := by
    cases se_in with
    | nil => exact absurd rfl hne
    | cons a l => rfl
  refine ⟨{ url := self.connection.uri ++ "codes", reqType := "POST",
            postData := some (createPostData name parent_code_id description
              defaultCodeType se_out),
            raw := false }, ?_, rfl⟩
  simp [createCode, ht, hc]

/-- C8 witness: a concrete create taking the default `code_type` carries
`codeType = SourceCode` in its POST body. -/
theorem C8_witness_default_code_type :
    ∃ r : Request,
      (createCode codes404 (some "Default Type Code") none none defaultCodeType
        (some [[("name", JVal.s "Event"), ("is_searchable", JVal.b true),
                ("is_applicable", JVal.b true)]])).trace = [TraceItem.req r] ∧
      (r.postData.getD []).lookup "codeType" = some (JVal.s "SourceCode") :=
  C8_code_type_defaults_to_source_code.2 codes404 (some "Default Type Code") none none
    [[("name", JVal.s "Event"), ("is_searchable", JVal.b true),
      ("is_applicable", JVal.b true)]]
    [[("name", JVal.s "Event"), ("isSearchable", JVal.b true),
      ("is_applicable", JVal.b true)]]
    (by simp) rfl

/-- C9: every operation of the client leaves its state — the sole field,
the connection reference — unchanged. -/
theorem C9_client_state_unchanged :
    ∀ (self : Codes),
      (∀ (name supported_entities parent_code_id code_type : Option String)
         (page_size : Int),
        (getCodes self name supported_entities parent_code_id code_type page_size).state =
          self) ∧
      (∀ code_id : Int, (getCode self code_id).state = self) ∧
      (getCodeTypes self).state = self ∧
      (∀ (name : Option String) (parent_code_id : Option Int) (description : Option String)
         (code_type : String) (supported_entities : Option (List PyDict)),
        (createCode self name parent_code_id description code_type
          supported_entities).state = self) ∧
      (∀ (code_id : Int) (name : Option String) (parent_code_id : Option Int)
         (description code_type : Option String)
         (supported_entities : Option (List PyDict)),
        (updateCode self code_id name parent_code_id description code_type
          supported_entities).state = self) ∧
      (∀ code_id : Int, (deleteCode self code_id).state = self) ∧
      (getCodeSupportedEntities self).state = self := by
  intro self
  refine ⟨fun _ _ _ _ _ => rfl, fun _ => rfl, rfl, ?_, ?_, fun _ => rfl, rfl⟩
  · intro name parent_code_id description code_type supported_entities
    simp only [createCode]
    split
    · split <;> rfl
    · rfl
  · intro code_id name parent_code_id description code_type supported_entities
    simp only [updateCode]
    split <;> rfl

/-- C10: an element of `supported_entities` lacking one of the keys
`name`, `is_searchable`, `is_applicable` (such as one carrying only a name
and a `start_time`/`end_time` window) makes both `create_code` and
`update_code` raise a `KeyError` with no request issued; and every dict a
successful conversion sends carries exactly the three remote keys — never
`start_time` or `end_time`. -/
theorem C10_entity_keys_required_and_time_window_dropped :
    (∀ (self : Codes) (s0 : PyDict) (rest : List PyDict) (nm : JVal),
      s0.lookup "name" = some nm → s0.lookup "is_searchable" = none →
      ∀ (name : Option String) (parent_code_id : Option Int)
        (description : Option String) (code_type : String)
        (code_id : Int) (code_type_u : Option String),
        createCode self name parent_code_id description code_type (some (s0 :: rest)) =
          { trace := [], result := Except.error (PyError.keyError "is_searchable"),
            state := self } ∧
        updateCode self code_id name parent_code_id description code_type_u
            (some (s0 :: rest)) =
          { trace := [], result := Except.error (PyError.keyError "is_searchable"),
            state := self }) ∧
    (∀ (l se_out : List PyDict), convertEntities l = Except.ok se_out →
      ∀ d ∈ se_out,
        d.map Prod.fst = ["name", "isSearchable", "is_applicable"] ∧
        "start_time" ∉ d.map Prod.fst ∧ "end_time" ∉ d.map Prod.fst) := by
  constructor
  · intro self s0 rest nm h1 h2 name parent_code_id description code_type code_id code_type_u
    have hconv : convertEntities (s0 :: rest) =
        Except.error (PyError.keyError "is_searchable") := by
      simp [convertEntities, convertEntity, dictGet, h1, h2]
    have hb : updateBody name parent_code_id description code_type_u (some (s0 :: rest)) =
        Except.error (PyError.keyError "is_searchable") := by
      simp [updateBody, truthyList, hconv]
    constructor
    · simp [createCode, truthyList, hconv]
    · simp [updateCode, hb]
  · intro l se_out h d hd
    have hk := convertEntities_keys l se_out h d hd
    refine ⟨hk, ?_, ?_⟩ <;> rw [hk] <;> simp

/-- C10 witness: the docstring's `Locations` element, carrying only a name
and a validity window, aborts both methods with `KeyError
is_searchable` before any request. -/
theorem C10_witness_locations_element :
    createCode codes404 (some "Test Code") none none defaultCodeType
        (some [[("name", JVal.s "Locations"),
                ("start_time", JVal.s "12-31-2018T13:00:00"),
                ("end_time", JVal.s "12-31-2018T14:00:00")]]) =
      { trace := [], result := Except.error (PyError.keyError "is_searchable"),
        state := codes404 } ∧
    updateCode codes404 7 (some "Test Code") none none none
        (some [[("name", JVal.s "Locations"),
                ("start_time", JVal.s "12-31-2018T13:00:00"),
                ("end_time", JVal.s "12-31-2018T14:00:00")]]) =
      { trace := [], result := Except.error (PyError.keyError "is_searchable"),
        state := codes404 } :=
  C10_entity_keys_required_and_time_window_dropped.1 codes404
    [("name", JVal.s "Locations"),
     ("start_time", JVal.s "12-31-2018T13:00:00"),
     ("end_time", JVal.s "12-31-2018T14:00:00")] [] (JVal.s "Locations") rfl rfl
    (some "Test Code") none none defaultCodeType 7 none

end ParsonsNgpvan
